import Mathlib

/-
  Verification development for the emoticon analytics cog.

  Shallow embedding of src/cogs/emoticon/{renderer,extractor,permissions,
  emoticon,models}.py.  Pure functions are translated directly; the
  database query builders are modelled as predicates over an explicit list
  of usage records; the scan routine is modelled as a deterministic state
  machine parameterised by a cooperative-cancellation oracle.

  Numeric string formatting (thousands separators, one-decimal floats) is
  presentation only; renderer results are kept as structured values with
  exact rationals for the computed percentages.
-/

namespace Emoticon

/- ### renderer.py : settings -/

/-- models.TieGrouping enum. -/
inductive TieGrouping where
  | group
  | listAll
deriving DecidableEq, Repr

/-- renderer.RenderSettings dataclass (fully populated settings). -/
structure RenderSettings where
  show_ids : Bool
  show_percentages : Bool
  compact_mode : Bool
  tie_grouping : TieGrouping
  max_entries : Nat
deriving DecidableEq, Repr

/-- The dataclass field defaults of RenderSettings. -/
def defaultSettings : RenderSettings :=
  { show_ids := false
    show_percentages := true
    compact_mode := false
    tie_grouping := TieGrouping.group
    max_entries := 10 }

/-- A partial settings dict as passed to merge_settings: each of the four
merged fields may be absent or None (both map to none here). -/
structure PartialSettings where
  show_ids : Option Bool := none
  show_percentages : Option Bool := none
  compact_mode : Option Bool := none
  tie_grouping : Option TieGrouping := none
deriving DecidableEq, Repr

/-- One tier application inside merge_settings: a key overwrites the
accumulated value only when its value is not None. -/
def applyTier (base : RenderSettings) (t : PartialSettings) : RenderSettings :=
  { base with
    show_ids := t.show_ids.getD base.show_ids
    show_percentages := t.show_percentages.getD base.show_percentages
    compact_mode := t.compact_mode.getD base.compact_mode
    tie_grouping := t.tie_grouping.getD base.tie_grouping }

/-- renderer.merge_settings: start from the dataclass defaults, then apply
global, command and runtime tiers in that order (each may be None
entirely).  max_entries is not among the merged keys, so the final
RenderSettings(**result) keeps its default. -/
def mergeSettings (g c r : Option PartialSettings) : RenderSettings :=
  let s0 := defaultSettings
  let s1 := match g with
    | some t => applyTier s0 t
    | none => s0
  let s2 := match c with
    | some t => applyTier s1 t
    | none => s1
  match r with
  | some t => applyTier s2 t
  | none => s2

/-- Project a resolved settings value back to a (fully present) partial
settings dict, as done when re-feeding merge output into merge. -/
def RenderSettings.toPartial (s : RenderSettings) : PartialSettings :=
  { show_ids := some s.show_ids
    show_percentages := some s.show_percentages
    compact_mode := some s.compact_mode
    tie_grouping := some s.tie_grouping }

/-- Reference resolution of a single field: highest present tier wins,
falling back to the hard-coded default. -/
def resolveField {α : Type} (dflt : α) (g c r : Option α) : α :=
  match r with
  | some v => v
  | none =>
    match c with
    | some v => v
    | none =>
      match g with
      | some v => v
      | none => dflt

theorem resolveField_eq_getD {α : Type} (dflt : α) (g c r : Option α) :
    resolveField dflt g c r = r.getD (c.getD (g.getD dflt)) := by
  cases r <;> cases c <;> cases g <;> rfl

/- ### renderer.py : rendering with guarded division -/

/-- Runtime errors a rendering call could raise in Python. -/
inductive PyError where
  | zeroDivision
  | nameError (n : String)
deriving DecidableEq, Repr

/-- Python division: raises ZeroDivisionError on a zero denominator. -/
def pyDiv (a b : ℚ) : Except PyError ℚ :=
  if b = 0 then Except.error PyError.zeroDivision else Except.ok (a / b)

/-- Renderer.render_emoji.  Python if-truthiness: an emoji id of 0 (like
None) selects the unicode branch. -/
def renderEmoji (s : RenderSettings) (emoji_id : Option Nat) (emoji_name : String)
    (animated : Bool) : String :=
  match emoji_id with
  | some i =>
    if i = 0 then emoji_name
    else
      let base := "<" ++ (if animated then "a" else "") ++ ":" ++ emoji_name ++ ":"
        ++ toString i ++ ">"
      if s.show_ids then base ++ " (" ++ toString i ++ ")" else base
  | none => emoji_name

/-- Structured result of render_leaderboard_entry: the computed values the
text is assembled from (the percentage is computed before the optional
display branch, hence present unconditionally). -/
structure LeaderboardEntryRender where
  rank : Nat
  emojiText : String
  count : Int
  percentage : ℚ
deriving DecidableEq, Repr

/-- Renderer.render_leaderboard_entry: percentage is (count / total * 100)
when total > 0, else 0 (no division attempted). -/
def renderLeaderboardEntry (s : RenderSettings) (rank : Nat) (emoji_id : Option Nat)
    (emoji_name : String) (count total : Int) (animated : Bool) :
    Except PyError LeaderboardEntryRender := do
  let pct ← if 0 < total then do
      let q ← pyDiv (count : ℚ) (total : ℚ)
      pure (q * 100)
    else pure 0
  pure { rank := rank
         emojiText := renderEmoji s emoji_id emoji_name animated
         count := count
         percentage := pct }

/-- Structured result of render_user_leaderboard_entry. -/
structure UserEntryRender where
  rank : Nat
  user_name : String
  count : Int
  percentage : ℚ
deriving DecidableEq, Repr

/-- Renderer.render_user_leaderboard_entry: same percentage guard. -/
def renderUserLeaderboardEntry (_s : RenderSettings) (rank : Nat) (user_name : String)
    (count total : Int) : Except PyError UserEntryRender := do
  let pct ← if 0 < total then do
      let q ← pyDiv (count : ℚ) (total : ℚ)
      pure (q * 100)
    else pure 0
  pure { rank := rank, user_name := user_name, count := count, percentage := pct }

/-- Outcome line of render_comparison. -/
inductive Victory where
  | leadsA (diff : ℚ)
  | leadsB (diff : ℚ)
  | tie
deriving DecidableEq, Repr

/-- Structured result of render_comparison. -/
structure ComparisonRender where
  pctA : ℚ
  pctB : ℚ
  victory : Victory
deriving DecidableEq, Repr

/-- Renderer.render_comparison on the two counts: percentages default to
50/50 when the combined total is 0, and the lead computation divides only
by a strictly positive count (else 100). -/
def renderComparison (count_a count_b : Int) : Except PyError ComparisonRender := do
  let total := count_a + count_b
  let pctA ← if 0 < total then do
      let q ← pyDiv (count_a : ℚ) (total : ℚ)
      pure (q * 100)
    else pure 50
  let pctB ← if 0 < total then do
      let q ← pyDiv (count_b : ℚ) (total : ℚ)
      pure (q * 100)
    else pure 50
  let v ← if count_b < count_a then do
      let d ← if 0 < count_b then do
          let q ← pyDiv ((count_a - count_b : Int) : ℚ) (count_b : ℚ)
          pure (q * 100)
        else pure 100
      pure (Victory.leadsA d)
    else if count_a < count_b then do
      let d ← if 0 < count_a then do
          let q ← pyDiv ((count_b - count_a : Int) : ℚ) (count_a : ℚ)
          pure (q * 100)
        else pure 100
      pure (Victory.leadsB d)
    else pure Victory.tie
  pure { pctA := pctA, pctB := pctB, victory := v }

/- ### theorems: settings merge -/

/-- C7: merge resolves each of the four fields independently with
precedence runtime over command over global over default, where a None at
a higher tier never clears a lower tier (field-wise orElse chain); and in
particular global show_ids=false, command show_ids=true, runtime absent
resolves to true, while adding runtime show_ids=false resolves to false. -/
theorem merge_settings_precedence (g c r : Option PartialSettings) :
    ((mergeSettings g c r).show_ids
        = resolveField defaultSettings.show_ids
            (g.bind PartialSettings.show_ids) (c.bind PartialSettings.show_ids)
            (r.bind PartialSettings.show_ids))
    ∧ ((mergeSettings g c r).show_percentages
        = resolveField defaultSettings.show_percentages
            (g.bind PartialSettings.show_percentages) (c.bind PartialSettings.show_percentages)
            (r.bind PartialSettings.show_percentages))
    ∧ ((mergeSettings g c r).compact_mode
        = resolveField defaultSettings.compact_mode
            (g.bind PartialSettings.compact_mode) (c.bind PartialSettings.compact_mode)
            (r.bind PartialSettings.compact_mode))
    ∧ ((mergeSettings g c r).tie_grouping
        = resolveField defaultSettings.tie_grouping
            (g.bind PartialSettings.tie_grouping) (c.bind PartialSettings.tie_grouping)
            (r.bind PartialSettings.tie_grouping))
    ∧ (mergeSettings (some { show_ids := some false }) (some { show_ids := some true })
        (some {})).show_ids = true
    ∧ (mergeSettings (some { show_ids := some false }) (some { show_ids := some true })
        (some { show_ids := some false })).show_ids = false := by
  refine ⟨?_, ?_, ?_, ?_, rfl, rfl⟩ <;>
    cases g <;> cases c <;> cases r <;>
      simp [mergeSettings, applyTier, resolveField_eq_getD, Option.getD]

/-- C8: merge is idempotent under re-application: feeding the fully
resolved output back as the global tier with no command and no runtime
input reproduces the same resolved settings. -/
theorem merge_settings_idempotent (g c r : Option PartialSettings) :
    mergeSettings (some (RenderSettings.toPartial (mergeSettings g c r))) none none
      = mergeSettings g c r := by
  have hmax : (mergeSettings g c r).max_entries = 10 := by
    cases g <;> cases c <;> cases r <;> rfl
  show applyTier defaultSettings (RenderSettings.toPartial (mergeSettings g c r))
      = mergeSettings g c r
  have h : applyTier defaultSettings (RenderSettings.toPartial (mergeSettings g c r))
      = { mergeSettings g c r with max_entries := defaultSettings.max_entries } := rfl
  rw [h]
  have h2 : defaultSettings.max_entries = (mergeSettings g c r).max_entries := by
    rw [hmax]; rfl
  rw [h2]

/- ### theorems: renderer zero-denominator guards -/

/-- C10: every percentage computation in the renderer guards its
denominator: a leaderboard entry (emoji or user form) with total = 0
renders percentage 0 without a ZeroDivisionError, and a comparison of two
zero counts renders 50 percent on both sides with the tie outcome,
without error. -/
theorem renderer_zero_denominator_guards (s : RenderSettings) (rank : Nat)
    (emoji_id : Option Nat) (emoji_name user_name : String) (count : Int)
    (animated : Bool) :
    renderLeaderboardEntry s rank emoji_id emoji_name count 0 animated
        = Except.ok { rank := rank
                      emojiText := renderEmoji s emoji_id emoji_name animated
                      count := count
                      percentage := 0 }
    ∧ renderUserLeaderboardEntry s rank user_name count 0
        = Except.ok { rank := rank, user_name := user_name, count := count, percentage := 0 }
    ∧ renderComparison 0 0
        = Except.ok { pctA := 50, pctB := 50, victory := Victory.tie } := by
  refine ⟨?_, ?_, rfl⟩ <;> rfl

/- ### extractor.py -/

/-- extractor.ExtractedEmoji dataclass. -/
structure ExtractedEmoji where
  emoji_id : Option Nat
  emoji_name : String
  animated : Bool := false
  is_external : Bool := false
  count : Nat := 1
deriving DecidableEq, Repr

/-- ASCII core of the regex word class (letters, digits, underscore). -/
def isWordChar (c : Char) : Bool :=
  (65 ≤ c.toNat && c.toNat ≤ 90) || (97 ≤ c.toNat && c.toNat ≤ 122) ||
  (48 ≤ c.toNat && c.toNat ≤ 57) || c = '_'

/-- The regex digit class. -/
def isDigitChar (c : Char) : Bool :=
  48 ≤ c.toNat && c.toNat ≤ 57

/-- The unicode emoji character class of extractor.UNICODE_EMOJI_PATTERN:
union of the listed code point ranges. -/
def isEmojiChar (c : Char) : Bool :=
  let n := c.toNat
  (0x1F600 ≤ n && n ≤ 0x1F64F) ||
  (0x1F300 ≤ n && n ≤ 0x1F5FF) ||
  (0x1F680 ≤ n && n ≤ 0x1F6FF) ||
  (0x1F700 ≤ n && n ≤ 0x1F77F) ||
  (0x1F780 ≤ n && n ≤ 0x1F7FF) ||
  (0x1F800 ≤ n && n ≤ 0x1F8FF) ||
  (0x1F900 ≤ n && n ≤ 0x1F9FF) ||
  (0x1FA00 ≤ n && n ≤ 0x1FA6F) ||
  (0x1FA70 ≤ n && n ≤ 0x1FAFF) ||
  (0x2702 ≤ n && n ≤ 0x27B0) ||
  (0x24C2 ≤ n && n ≤ 0x1F251)

/-- Maximal-munch nonempty run of characters satisfying p (the regex
one-or-more repetitions), returning the run and the remaining input. -/
def takeRun1 (p : Char → Bool) (cs : List Char) : Option (List Char × List Char) :=
  match cs with
  | [] => none
  | c :: rest =>
    if p c then some (c :: rest.takeWhile p, rest.dropWhile p) else none

/-- The capture groups of one CUSTOM_EMOJI_PATTERN match. -/
structure CustomTagMatch where
  animated : Bool
  nameChars : List Char
  idDigits : List Char
deriving DecidableEq, Repr

/-- Consume one expected literal character. -/
def parseChar (c : Char) (cs : List Char) : Option (List Char) :=
  match cs with
  | [] => none
  | x :: rest => if x = c then some rest else none

/-- The optional animated marker followed by its colon: the regex piece
(a)?: with its backtracking resolved (a is taken only when a colon
follows it; otherwise the colon must come first). -/
def parseMark (cs : List Char) : Option (Bool × List Char) :=
  match cs with
  | x :: y :: r =>
    if x = 'a' && y = ':' then some (true, r)
    else if x = ':' then some (false, y :: r)
    else none
  | x :: r => if x = ':' then some (false, r) else none
  | [] => none

/-- One attempted match of CUSTOM_EMOJI_PATTERN at the start of the
input: an opening angle bracket, the optional animated marker, a colon,
a nonempty run of word characters, a colon, a nonempty run of digits and
a closing angle bracket.  The regex is deterministic here because colon,
closing bracket and the repeated character classes are disjoint, so
maximal munch needs no further backtracking. -/
def matchCustomTag (cs : List Char) : Option (CustomTagMatch × List Char) :=
  match cs with
  | [] => none
  | c0 :: rest =>
    if c0 = '<' then
      (parseMark rest).bind (fun p =>
        (takeRun1 isWordChar p.2).bind (fun q =>
          (parseChar ':' q.2).bind (fun r3 =>
            (takeRun1 isDigitChar r3).bind (fun w =>
              (parseChar '>' w.2).map (fun r5 =>
                ({ animated := p.1, nameChars := q.1, idDigits := w.1 }, r5))))))
    else none

/-- The regex finditer loop: repeatedly try a match at the current
position, else advance one character.  Fuel-indexed structural recursion;
fuel equal to the input length always suffices because a successful match
consumes at least one character. -/
def scanTokensF {β : Type} (step : List Char → Option (β × List Char)) :
    Nat → List Char → List β
  | 0, _ => []
  | _ + 1, [] => []
  | fuel + 1, c :: cs =>
    match step (c :: cs) with
    | some (t, rest) => t :: scanTokensF step fuel rest
    | none => scanTokensF step fuel cs

/-- finditer over CUSTOM_EMOJI_PATTERN. -/
def findCustomTags (cs : List Char) : List CustomTagMatch :=
  scanTokensF matchCustomTag cs.length cs

/-- finditer over UNICODE_EMOJI_PATTERN: maximal runs of emoji-class
characters. -/
def findEmojiRuns (cs : List Char) : List (List Char) :=
  scanTokensF (takeRun1 isEmojiChar) cs.length cs

/-- The numeric value of the digit capture group. -/
def digitsToNat (ds : List Char) : Nat :=
  ds.foldl (fun n c => n * 10 + (c.toNat - 48)) 0

/-- Building the ExtractedEmoji for one custom emoji match: external iff
the id is not among the guild emoji ids captured at construction. -/
def customTagToEmoji (gids : List Nat) (m : CustomTagMatch) : ExtractedEmoji :=
  let i := digitsToNat m.idDigits
  { emoji_id := some i
    emoji_name := String.mk m.nameChars
    animated := m.animated
    is_external := !(gids.contains i)
    count := 1 }

/-- One step of EmojiExtractor._consolidate_emojis: a dict keyed by
(emoji_id, emoji_name) in insertion order, summing counts. -/
def addConsolidated (acc : List ExtractedEmoji) (e : ExtractedEmoji) : List ExtractedEmoji :=
  if acc.any (fun x => x.emoji_id = e.emoji_id && x.emoji_name = e.emoji_name) then
    acc.map (fun x =>
      if x.emoji_id = e.emoji_id && x.emoji_name = e.emoji_name then
        { x with count := x.count + e.count }
      else x)
  else acc ++ [e]

def consolidateEmojis (es : List ExtractedEmoji) : List ExtractedEmoji :=
  es.foldl addConsolidated []

/-- EmojiExtractor.extract_from_message: all custom emoji matches, then
every character of every unicode emoji run (one code point at a time),
then consolidation. -/
def extractFromMessage (gids : List Nat) (content : String) : List ExtractedEmoji :=
  let cs := content.data
  let customs := (findCustomTags cs).map (customTagToEmoji gids)
  let unicodes := ((findEmojiRuns cs).flatten).map (fun c =>
    ({ emoji_id := none
       emoji_name := String.mk [c]
       animated := false
       is_external := false
       count := 1 } : ExtractedEmoji))
  consolidateEmojis (customs ++ unicodes)

/-- The raw text of a custom emoji tag built from its parts. -/
def tagChars (anim : Bool) (nm ds : List Char) : List Char :=
  '<' :: ((if anim then ['a'] else []) ++ (':' :: (nm ++ (':' :: (ds ++ ['>'])))))

/- ### extractor lemmas -/

theorem takeWhile_all_append {p : Char → Bool} {l : List Char}
    (hl : ∀ c ∈ l, p c = true) {c : Char} (hc : p c = false) (rest : List Char) :
    (l ++ c :: rest).takeWhile p = l ∧ (l ++ c :: rest).dropWhile p = c :: rest := by
  induction l with
  | nil => simp [List.takeWhile_cons, List.dropWhile_cons, hc]
  | cons a l ih =>
    have ha := hl a (by simp)
    have hl2 : ∀ x ∈ l, p x = true := fun x hx => hl x (by simp [hx])
    obtain ⟨h1, h2⟩ := ih hl2
    simp [List.takeWhile_cons, List.dropWhile_cons, ha, h1, h2]

theorem takeRun1_all_append {p : Char → Bool} {l : List Char} (hne : l ≠ [])
    (hl : ∀ c ∈ l, p c = true) {c : Char} (hc : p c = false) (rest : List Char) :
    takeRun1 p (l ++ c :: rest) = some (l, c :: rest) := by
  cases l with
  | nil => exact absurd rfl hne
  | cons a l =>
    have ha := hl a (by simp)
    have hl2 : ∀ x ∈ l, p x = true := fun x hx => hl x (by simp [hx])
    obtain ⟨h1, h2⟩ := takeWhile_all_append hl2 hc rest
    simp [takeRun1, ha, h1, h2]

theorem parseMark_colon (x : List Char) : parseMark (':' :: x) = some (false, x) := by
  cases x <;> simp [parseMark]

theorem parseMark_anim (x : List Char) : parseMark ('a' :: ':' :: x) = some (true, x) := by
  simp [parseMark]

theorem parseChar_cons (c : Char) (x : List Char) : parseChar c (c :: x) = some x := by
  simp [parseChar]

theorem matchCustomTag_tag (anim : Bool) {nm ds : List Char} (rest : List Char)
    (hnm1 : nm ≠ []) (hnm2 : ∀ c ∈ nm, isWordChar c = true)
    (hds1 : ds ≠ []) (hds2 : ∀ c ∈ ds, isDigitChar c = true) :
    matchCustomTag (tagChars anim nm ds ++ rest)
      = some ({ animated := anim, nameChars := nm, idDigits := ds }, rest) := by
  have hcolon : isWordChar ':' = false := by decide
  have hgt : isDigitChar '>' = false := by decide
  have h1 : takeRun1 isWordChar (nm ++ ':' :: (ds ++ '>' :: rest))
      = some (nm, ':' :: (ds ++ '>' :: rest)) := takeRun1_all_append hnm1 hnm2 hcolon _
  have h2 : takeRun1 isDigitChar (ds ++ '>' :: rest) = some (ds, '>' :: rest) :=
    takeRun1_all_append hds1 hds2 hgt _
  cases anim <;>
    simp [tagChars, matchCustomTag, parseMark_colon, parseMark_anim, parseChar_cons,
      h1, h2, Option.bind]

theorem scanTokensF_succ_some {β : Type} {step : List Char → Option (β × List Char)}
    {fuel : Nat} {cs : List Char} {t : β} {rest : List Char}
    (h0 : cs ≠ []) (h : step cs = some (t, rest)) :
    scanTokensF step (fuel + 1) cs = t :: scanTokensF step fuel rest := by
  cases cs with
  | nil => exact absurd rfl h0
  | cons c cs => simp [scanTokensF, h]

theorem scanTokensF_succ_none {β : Type} {step : List Char → Option (β × List Char)}
    {fuel : Nat} {c : Char} {cs : List Char} (h : step (c :: cs) = none) :
    scanTokensF step (fuel + 1) (c :: cs) = scanTokensF step fuel cs := by
  simp [scanTokensF, h]

theorem findCustomTagsF_join_replicate (anim : Bool) {nm ds : List Char}
    (hnm1 : nm ≠ []) (hnm2 : ∀ c ∈ nm, isWordChar c = true)
    (hds1 : ds ≠ []) (hds2 : ∀ c ∈ ds, isDigitChar c = true) :
    ∀ k fuel, k ≤ fuel →
      scanTokensF matchCustomTag fuel
          (List.flatten (List.replicate k (tagChars anim nm ds)))
        = List.replicate k { animated := anim, nameChars := nm, idDigits := ds } := by
  intro k
  induction k with
  | zero =>
    intro fuel _
    show scanTokensF matchCustomTag fuel [] = []
    cases fuel <;> rfl
  | succ k ih =>
    intro fuel hf
    obtain ⟨f, rfl⟩ : ∃ f, fuel = f + 1 := ⟨fuel - 1, by omega⟩
    have hjoin : List.flatten (List.replicate (k + 1) (tagChars anim nm ds))
        = tagChars anim nm ds ++ List.flatten (List.replicate k (tagChars anim nm ds)) := by
      rw [List.replicate_succ, List.flatten_cons]
    rw [hjoin,
      scanTokensF_succ_some (by simp [tagChars])
        (matchCustomTag_tag anim _ hnm1 hnm2 hds1 hds2),
      ih f (by omega), List.replicate_succ]

theorem findEmojiRunsF_of_no_emoji {cs : List Char}
    (h : ∀ c ∈ cs, isEmojiChar c = false) :
    ∀ fuel, scanTokensF (takeRun1 isEmojiChar) fuel cs = [] := by
  induction cs with
  | nil => intro fuel; cases fuel <;> rfl
  | cons c cs ih =>
    intro fuel
    cases fuel with
    | zero => rfl
    | succ f =>
      have hc := h c (by simp)
      have hrun : takeRun1 isEmojiChar (c :: cs) = none := by simp [takeRun1, hc]
      rw [scanTokensF_succ_none hrun]
      exact ih (fun x hx => h x (by simp [hx])) f

theorem isEmojiChar_eq_false_of_lt {c : Char} (h : c.toNat < 0x24C2) :
    isEmojiChar c = false := by
  simp only [isEmojiChar, Bool.or_eq_false_iff, Bool.and_eq_false_iff,
    decide_eq_false_iff_not, not_le]
  omega

theorem toNat_lt_of_isWordChar {c : Char} (h : isWordChar c = true) :
    c.toNat < 0x24C2 := by
  simp only [isWordChar, Bool.or_eq_true, Bool.and_eq_true, decide_eq_true_eq] at h
  rcases h with ((h | h) | h) | h
  · omega
  · omega
  · omega
  · rw [h]; decide

theorem toNat_lt_of_isDigitChar {c : Char} (h : isDigitChar c = true) :
    c.toNat < 0x24C2 := by
  simp only [isDigitChar, Bool.and_eq_true, decide_eq_true_eq] at h
  omega

theorem tag_no_emoji (anim : Bool) {nm ds : List Char}
    (hnm2 : ∀ c ∈ nm, isWordChar c = true) (hds2 : ∀ c ∈ ds, isDigitChar c = true) :
    ∀ c ∈ tagChars anim nm ds, isEmojiChar c = false := by
  intro c hc
  apply isEmojiChar_eq_false_of_lt
  have hsplit : c ∈ ['<', 'a', ':', '>'] ∨ c ∈ nm ∨ c ∈ ds := by
    cases anim <;> simp [tagChars] at hc <;> simp <;> tauto
  rcases hsplit with h | h | h
  · simp at h
    rcases h with rfl | rfl | rfl | rfl <;> decide
  · exact toNat_lt_of_isWordChar (hnm2 c h)
  · exact toNat_lt_of_isDigitChar (hds2 c h)

theorem consolidate_replicate {e : ExtractedEmoji} (he : e.count = 1) {k : Nat}
    (hk : 1 ≤ k) :
    consolidateEmojis (List.replicate k e) = [{ e with count := k }] := by
  have step : ∀ j c, List.foldl addConsolidated [{ e with count := c }] (List.replicate j e)
      = [{ e with count := c + j }] := by
    intro j
    induction j with
    | zero => intro c; simp
    | succ j ih =>
      intro c
      rw [List.replicate_succ, List.foldl_cons]
      have h1 : addConsolidated [{ e with count := c }] e = [{ e with count := c + 1 }] := by
        simp [addConsolidated, he]
      rw [h1, ih]
      have : c + 1 + j = c + (j + 1) := by omega
      rw [this]
  obtain ⟨j, rfl⟩ : ∃ j, k = j + 1 := ⟨k - 1, by omega⟩
  rw [consolidateEmojis, List.replicate_succ, List.foldl_cons]
  have h0 : addConsolidated [] e = [{ e with count := 1 }] := by
    have he2 : ({ e with count := 1 } : ExtractedEmoji) = e := by rw [← he]
    rw [he2]
    simp [addConsolidated]
  rw [h0, step]
  have : 1 + j = j + 1 := by omega
  rw [this]

/-- C9: a message whose content is the same custom emoji tag repeated k
times (k at least 1) extracts to exactly one tuple for that emoji
identity, with count = k.  The tag is any well-formed custom emoji tag:
optional animated marker, a nonempty word-character name and a nonempty
digit id. -/
theorem extract_repeated_custom_tag (gids : List Nat) (anim : Bool)
    (nm ds : List Char) (k : Nat) (hk : 1 ≤ k)
    (hnm1 : nm ≠ []) (hnm2 : ∀ c ∈ nm, isWordChar c = true)
    (hds1 : ds ≠ []) (hds2 : ∀ c ∈ ds, isDigitChar c = true) :
    extractFromMessage gids
        (String.mk (List.flatten (List.replicate k (tagChars anim nm ds))))
      = [{ emoji_id := some (digitsToNat ds)
           emoji_name := String.mk nm
           animated := anim
           is_external := !(gids.contains (digitsToNat ds))
           count := k }] := by
  have hdata : (String.mk (List.flatten (List.replicate k (tagChars anim nm ds)))).data
      = List.flatten (List.replicate k (tagChars anim nm ds)) := rfl
  have hlen : k ≤ (List.flatten (List.replicate k (tagChars anim nm ds))).length := by
    rw [List.length_flatten, List.map_replicate, List.sum_replicate, smul_eq_mul]
    have : 1 ≤ (tagChars anim nm ds).length := by simp [tagChars]
    calc k = k * 1 := by omega
      _ ≤ k * (tagChars anim nm ds).length := Nat.mul_le_mul_left k this
  have hcustom : findCustomTags (List.flatten (List.replicate k (tagChars anim nm ds)))
      = List.replicate k { animated := anim, nameChars := nm, idDigits := ds } :=
    findCustomTagsF_join_replicate anim hnm1 hnm2 hds1 hds2 k _ hlen
  have hnone : ∀ c ∈ List.flatten (List.replicate k (tagChars anim nm ds)),
      isEmojiChar c = false := by
    intro c hc
    rw [List.mem_flatten] at hc
    obtain ⟨l, hl, hcl⟩ := hc
    rw [List.eq_of_mem_replicate hl] at hcl
    exact tag_no_emoji anim hnm2 hds2 c hcl
  have hruns : findEmojiRuns (List.flatten (List.replicate k (tagChars anim nm ds))) = [] :=
    findEmojiRunsF_of_no_emoji hnone _
  rw [extractFromMessage]
  rw [hdata, hcustom, hruns]
  rw [List.map_replicate]
  simp only [List.flatten_nil, List.map_nil, List.append_nil]
  rw [consolidate_replicate rfl hk]
  rfl

/- ### models.py -/

/-- models.TrackingMode enum (also used as EmojiFilter.filter_type). -/
inductive TrackingMode where
  | all
  | whitelist
  | blacklist
deriving DecidableEq, Repr

/-- models.EmojiFilter row. -/
structure EmojiFilterRec where
  guild_id : Nat
  emoji_id : Option Nat
  emoji_name : String
  filter_type : TrackingMode
deriving DecidableEq, Repr

/-- models.EmoticonConfig row, with the model field defaults (the fields
the verified code paths read). -/
structure EmoticonConfig where
  guild_id : Nat
  ignored_channels : List Nat := []
  ignored_categories : List Nat := []
  tracking_mode : TrackingMode := TrackingMode.all
  allow_external_emojis : Bool := true
  admin_override_roles : List Nat := []
  track_edits : Bool := true
  retain_deleted : Bool := true
  last_scan_message_id : Option Nat := none
deriving Repr

/- ### emoticon._should_track_emoji -/

/-- The lookup predicate actually used by the get_or_none call: guild id,
emoji NAME and filter type. -/
def filterLookupByName (config : EmoticonConfig) (emoji : ExtractedEmoji)
    (f : EmojiFilterRec) : Bool :=
  f.guild_id = config.guild_id && f.emoji_name = emoji.emoji_name &&
    f.filter_type = config.tracking_mode

/-- emoticon._should_track_emoji: external-emoji gate, track-all
short-circuit, then the whitelist/blacklist lookup (get_or_none modelled
as find? over the filter rows; the model has a uniqueness constraint on
the full key). -/
def shouldTrackEmoji (filters : List EmojiFilterRec) (emoji : ExtractedEmoji)
    (config : EmoticonConfig) : Bool :=
  if emoji.is_external && !config.allow_external_emojis then false
  else if config.tracking_mode = TrackingMode.all then true
  else
    let entry := filters.find? (filterLookupByName config emoji)
    if config.tracking_mode = TrackingMode.whitelist then entry.isSome
    else entry.isNone

/-- Definition following the claim C6 words (for comparison only): the
lookup key is the exact emoji identity — the numeric id for a custom
emoji, the name/character for a unicode emoji. -/
def shouldTrackEmojiSpecC6 (filters : List EmojiFilterRec) (emoji : ExtractedEmoji)
    (config : EmoticonConfig) : Bool :=
  if emoji.is_external && !config.allow_external_emojis then false
  else if config.tracking_mode = TrackingMode.all then true
  else
    let entry := filters.find? (fun f =>
      f.guild_id = config.guild_id && f.filter_type = config.tracking_mode &&
      (match emoji.emoji_id with
       | some i => f.emoji_id = some i
       | none => f.emoji_id = none && f.emoji_name = emoji.emoji_name))
    if config.tracking_mode = TrackingMode.whitelist then entry.isSome
    else entry.isNone

/-- C6 counterexample: a custom emoji with id 123 named smile, in a guild
whose whitelist holds an entry for a different custom emoji (id 999) that
shares the name smile.  The claim (identity = numeric id for custom
emoji) rejects it; the code accepts it because the lookup keys on the
name only. -/
theorem should_track_identity_counterexample :
    shouldTrackEmoji
        [{ guild_id := 1, emoji_id := some 999, emoji_name := "smile",
           filter_type := TrackingMode.whitelist }]
        { emoji_id := some 123, emoji_name := "smile" }
        { guild_id := 1, tracking_mode := TrackingMode.whitelist } = true
    ∧ shouldTrackEmojiSpecC6
        [{ guild_id := 1, emoji_id := some 999, emoji_name := "smile",
           filter_type := TrackingMode.whitelist }]
        { emoji_id := some 123, emoji_name := "smile" }
        { guild_id := 1, tracking_mode := TrackingMode.whitelist } = false := by
  constructor <;> rfl

/-- C6 amended: past the external gate and the track-all case,
should_track consults whether an EmojiFilter entry exists for the triple
(guild, emoji NAME, mode) — the name being the key for custom emojis as
well, not the numeric id — and accepts iff present in whitelist mode,
accepts iff absent in blacklist mode. -/
theorem should_track_lookup_by_name (filters : List EmojiFilterRec)
    (emoji : ExtractedEmoji) (config : EmoticonConfig)
    (hext : (emoji.is_external && !config.allow_external_emojis) = false) :
    (config.tracking_mode = TrackingMode.whitelist →
      (shouldTrackEmoji filters emoji config = true ↔
        ∃ f ∈ filters, f.guild_id = config.guild_id ∧
          f.emoji_name = emoji.emoji_name ∧ f.filter_type = config.tracking_mode))
    ∧ (config.tracking_mode = TrackingMode.blacklist →
      (shouldTrackEmoji filters emoji config = true ↔
        ¬∃ f ∈ filters, f.guild_id = config.guild_id ∧
          f.emoji_name = emoji.emoji_name ∧ f.filter_type = config.tracking_mode)) := by
  have hfind : (filters.find? (filterLookupByName config emoji)).isSome ↔
      ∃ f ∈ filters, f.guild_id = config.guild_id ∧
        f.emoji_name = emoji.emoji_name ∧ f.filter_type = config.tracking_mode := by
    rw [List.find?_isSome]
    constructor
    · rintro ⟨f, hf, hp⟩
      simp only [filterLookupByName, Bool.and_eq_true, decide_eq_true_eq] at hp
      exact ⟨f, hf, hp.1.1, hp.1.2, hp.2⟩
    · rintro ⟨f, hf, h1, h2, h3⟩
      exact ⟨f, hf, by simp [filterLookupByName, h1, h2, h3]⟩
  constructor
  · intro hm
    simp only [hm] at hfind ⊢
    have hval : shouldTrackEmoji filters emoji config
        = (filters.find? (filterLookupByName config emoji)).isSome := by
      unfold shouldTrackEmoji
      rw [hext]
      simp [hm]
    rw [hval]
    exact hfind
  · intro hm
    clear hfind
    simp only [hm]
    have hval : shouldTrackEmoji filters emoji config
        = (filters.find? (filterLookupByName config emoji)).isNone := by
      unfold shouldTrackEmoji
      rw [hext]
      simp [hm]
    rw [hval, Option.isNone_iff_eq_none, List.find?_eq_none]
    constructor
    · rintro hnone ⟨f, hf, h1, h2, h3⟩
      have hne := hnone f hf
      simp only [filterLookupByName, Bool.and_eq_true, decide_eq_true_eq] at hne
      exact hne ⟨⟨h1, h2⟩, h3.trans hm.symm⟩
    · intro hnex f hf
      simp only [filterLookupByName, Bool.and_eq_true, decide_eq_true_eq]
      rintro ⟨⟨h1, h2⟩, h3⟩
      exact hnex ⟨f, hf, h1, h2, h3.trans hm⟩

/-- C6 amended witness: a non-external unicode emoji in whitelist mode
whose name is whitelisted. -/
theorem should_track_lookup_by_name_witness :
    ((({ emoji_id := none, emoji_name := "fire" } : ExtractedEmoji).is_external &&
        !({ guild_id := 1, tracking_mode := TrackingMode.whitelist } :
            EmoticonConfig).allow_external_emojis) = false)
    ∧ ((({ guild_id := 1, tracking_mode := TrackingMode.whitelist } :
          EmoticonConfig).tracking_mode = TrackingMode.whitelist →
        (shouldTrackEmoji
            [{ guild_id := 1, emoji_id := none, emoji_name := "fire",
               filter_type := TrackingMode.whitelist }]
            { emoji_id := none, emoji_name := "fire" }
            { guild_id := 1, tracking_mode := TrackingMode.whitelist } = true ↔
          ∃ f ∈ [({ guild_id := 1, emoji_id := none, emoji_name := "fire",
                    filter_type := TrackingMode.whitelist } : EmojiFilterRec)],
            f.guild_id = ({ guild_id := 1, tracking_mode := TrackingMode.whitelist } :
                EmoticonConfig).guild_id ∧
            f.emoji_name = ({ emoji_id := none, emoji_name := "fire" } :
                ExtractedEmoji).emoji_name ∧
            f.filter_type = ({ guild_id := 1, tracking_mode := TrackingMode.whitelist } :
                EmoticonConfig).tracking_mode))
      ∧ (({ guild_id := 1, tracking_mode := TrackingMode.whitelist } :
          EmoticonConfig).tracking_mode = TrackingMode.blacklist →
        (shouldTrackEmoji
            [{ guild_id := 1, emoji_id := none, emoji_name := "fire",
               filter_type := TrackingMode.whitelist }]
            { emoji_id := none, emoji_name := "fire" }
            { guild_id := 1, tracking_mode := TrackingMode.whitelist } = true ↔
          ¬∃ f ∈ [({ guild_id := 1, emoji_id := none, emoji_name := "fire",
                     filter_type := TrackingMode.whitelist } : EmojiFilterRec)],
            f.guild_id = ({ guild_id := 1, tracking_mode := TrackingMode.whitelist } :
                EmoticonConfig).guild_id ∧
            f.emoji_name = ({ emoji_id := none, emoji_name := "fire" } :
                ExtractedEmoji).emoji_name ∧
            f.filter_type = ({ guild_id := 1, tracking_mode := TrackingMode.whitelist } :
                EmoticonConfig).tracking_mode))) :=
  ⟨rfl, should_track_lookup_by_name _ _ _ rfl⟩

/-- C9 witness: the tag for custom emoji fire with id 42, repeated three
times. -/
theorem extract_repeated_custom_tag_witness :
    1 ≤ 3
    ∧ (['f', 'i', 'r', 'e'] : List Char) ≠ []
    ∧ (∀ c ∈ (['f', 'i', 'r', 'e'] : List Char), isWordChar c = true)
    ∧ (['4', '2'] : List Char) ≠ []
    ∧ (∀ c ∈ (['4', '2'] : List Char), isDigitChar c = true)
    ∧ extractFromMessage []
        (String.mk (List.flatten (List.replicate 3 (tagChars false ['f', 'i', 'r', 'e'] ['4', '2']))))
      = [{ emoji_id := some (digitsToNat ['4', '2'])
           emoji_name := String.mk ['f', 'i', 'r', 'e']
           animated := false
           is_external := !(List.contains [] (digitsToNat ['4', '2']))
           count := 3 }] :=
  ⟨by decide, by decide, by decide, by decide, by decide,
    extract_repeated_custom_tag [] false ['f', 'i', 'r', 'e'] ['4', '2'] 3
      (by decide) (by decide) (by decide) (by decide) (by decide)⟩

/- ### permissions.py -/

/-- The discord channel kinds: guild.channels also contains voice,
category, stage and forum channels, while the isinstance check in
get_viewable_channels keeps only text channels and threads. -/
inductive ChannelType where
  | text
  | voice
  | category
  | thread
  | forum
  | stage
deriving DecidableEq, Repr

structure GuildChannel where
  id : Nat
  ctype : ChannelType
deriving DecidableEq, Repr

/-- The viewer: id, guild-level administrator permission, role ids. -/
structure Member where
  id : Nat
  is_administrator : Bool
  role_ids : List Nat
deriving Repr

/-- The guild: channel list, own emoji id set, owner, and the external
permission-resolution capability (permissions_for(...).view_channel,
keyed by member id and channel id). -/
structure Guild where
  owner_id : Nat
  channels : List GuildChannel
  emoji_ids : List Nat
  view_channel : Nat → Nat → Bool

/-- guild.get_channel. -/
def getChannel (g : Guild) (cid : Nat) : Option GuildChannel :=
  g.channels.find? (fun c => c.id = cid)

/-- PermissionFilter.can_view_channel (the per-instance cache is
transparent for a pure permission function): a deleted or unknown channel
is not viewable, else the effective view permission decides. -/
def canViewChannel (g : Guild) (user : Member) (cid : Nat) : Bool :=
  match getChannel g cid with
  | none => false
  | some ch => g.view_channel user.id ch.id

/-- PermissionFilter.has_admin_override: guild owner, administrator
permission, or any held role among the configured override roles (the
Python truthiness check skips the role test when the config is missing or
the override role list is empty). -/
def hasAdminOverride (g : Guild) (config : Option EmoticonConfig) (user : Member) : Bool :=
  if user.id = g.owner_id then true
  else if user.is_administrator then true
  else
    match config with
    | some cfg =>
      if cfg.admin_override_roles ≠ [] &&
          user.role_ids.any (fun r => cfg.admin_override_roles.contains r) then true
      else false
    | none => false

/-- PermissionFilter.filter_channels. -/
def filterChannels (g : Guild) (config : Option EmoticonConfig) (user : Member)
    (cids : List Nat) : List Nat :=
  if hasAdminOverride g config user then cids
  else cids.filter (fun cid => canViewChannel g user cid)

/-- PermissionFilter.get_viewable_channels: with override, every channel
of the guild; otherwise only text channels and threads whose view
permission check passes. -/
def getViewableChannels (g : Guild) (config : Option EmoticonConfig) (user : Member) :
    List Nat :=
  if hasAdminOverride g config user then g.channels.map (fun c => c.id)
  else
    (g.channels.filter (fun c =>
      (c.ctype = ChannelType.text || c.ctype = ChannelType.thread) &&
      canViewChannel g user c.id)).map (fun c => c.id)

/-- Definition following the claim C2 words (for comparison only):
exactly the channels of the guild whose effective permissions include
view-channel, with no channel-kind restriction. -/
def viewableChannelsSpecC2 (g : Guild) (user : Member) : List Nat :=
  (g.channels.filter (fun c => g.view_channel user.id c.id)).map (fun c => c.id)

/-- C2 counterexample: a guild whose only channel is a voice channel the
viewer (no override) is permitted to view.  The code returns no channels,
because the loop only considers text channels and threads, while the
claim demands exactly the set of viewable channels. -/
theorem viewable_channels_counterexample :
    getViewableChannels
        { owner_id := 99, channels := [{ id := 1, ctype := ChannelType.voice }],
          emoji_ids := [], view_channel := fun _ _ => true }
        none { id := 5, is_administrator := false, role_ids := [] } = []
    ∧ viewableChannelsSpecC2
        { owner_id := 99, channels := [{ id := 1, ctype := ChannelType.voice }],
          emoji_ids := [], view_channel := fun _ _ => true }
        { id := 5, is_administrator := false, role_ids := [] } = [1] := by
  constructor <;> rfl

/-- C2 amended: for a viewer without admin override,
get_viewable_channels returns exactly the ids of the guild TEXT channels
and THREADS whose effective permission check passes (other channel kinds
are omitted even when viewable), and the returned set is a subset of the
guild full channel id set. -/
theorem viewable_channels_no_override (g : Guild) (config : Option EmoticonConfig)
    (user : Member) (h : hasAdminOverride g config user = false) :
    (∀ cid, cid ∈ getViewableChannels g config user ↔
      ∃ c ∈ g.channels, c.id = cid ∧
        (c.ctype = ChannelType.text ∨ c.ctype = ChannelType.thread) ∧
        canViewChannel g user c.id = true)
    ∧ ∀ cid ∈ getViewableChannels g config user, cid ∈ g.channels.map (fun c => c.id) := by
  constructor
  · intro cid
    simp only [getViewableChannels, h, Bool.false_eq_true, if_false, List.mem_map,
      List.mem_filter, Bool.and_eq_true, Bool.or_eq_true, decide_eq_true_eq]
    constructor
    · rintro ⟨c, ⟨hcin, hty, hv⟩, rfl⟩
      exact ⟨c, hcin, rfl, hty, hv⟩
    · rintro ⟨c, hcin, rfl, hty, hv⟩
      exact ⟨c, ⟨hcin, hty, hv⟩, rfl⟩
  · intro cid hmem
    simp only [getViewableChannels, h, Bool.false_eq_true, if_false, List.mem_map,
      List.mem_filter] at hmem
    obtain ⟨c, ⟨hcin, _⟩, rfl⟩ := hmem
    simp only [List.mem_map]
    exact ⟨c, hcin, rfl⟩

/-- C2 amended witness: a two-channel guild (a viewable text channel and
a viewable voice channel) with a viewer without override. -/
theorem viewable_channels_no_override_witness :
    hasAdminOverride
        { owner_id := 99,
          channels := [{ id := 1, ctype := ChannelType.text },
                       { id := 2, ctype := ChannelType.voice }],
          emoji_ids := [], view_channel := fun _ _ => true }
        none { id := 5, is_administrator := false, role_ids := [] } = false
    ∧ ((∀ cid, cid ∈ getViewableChannels
          { owner_id := 99,
            channels := [{ id := 1, ctype := ChannelType.text },
                         { id := 2, ctype := ChannelType.voice }],
            emoji_ids := [], view_channel := fun _ _ => true }
          none { id := 5, is_administrator := false, role_ids := [] } ↔
        ∃ c ∈ [({ id := 1, ctype := ChannelType.text } : GuildChannel),
               { id := 2, ctype := ChannelType.voice }], c.id = cid ∧
          (c.ctype = ChannelType.text ∨ c.ctype = ChannelType.thread) ∧
          canViewChannel
            { owner_id := 99,
              channels := [{ id := 1, ctype := ChannelType.text },
                           { id := 2, ctype := ChannelType.voice }],
              emoji_ids := [], view_channel := fun _ _ => true }
            { id := 5, is_administrator := false, role_ids := [] } c.id = true)
      ∧ ∀ cid ∈ getViewableChannels
          { owner_id := 99,
            channels := [{ id := 1, ctype := ChannelType.text },
                         { id := 2, ctype := ChannelType.voice }],
            emoji_ids := [], view_channel := fun _ _ => true }
          none { id := 5, is_administrator := false, role_ids := [] },
        cid ∈ [({ id := 1, ctype := ChannelType.text } : GuildChannel),
               { id := 2, ctype := ChannelType.voice }].map (fun c => c.id)) :=
  ⟨rfl, viewable_channels_no_override _ none _ rfl⟩

/- ### the usage store and emoticon._apply_query_filters -/

/-- models.EmojiUsage row. -/
structure UsageRecord where
  guild_id : Nat
  channel_id : Nat
  user_id : Nat
  message_id : Nat
  emoji_id : Option Nat
  emoji_name : String
  emoji_animated : Bool := false
  is_external : Bool := false
  is_reaction : Bool := false
  count : Nat := 1
  message_timestamp : Option Int := none
deriving DecidableEq, Repr

/-- query_parser.ParsedQuery, the fields _apply_query_filters reads
(roles are collected by the parser but never used by the filter builder,
and the display flags feed the settings merge instead). -/
structure ParsedQuery where
  channels : List Nat := []
  excluded_channels : List Nat := []
  users : List Nat := []
  excluded_users : List Nat := []
  emojis : List String := []
  date_after : Option Int := none
  date_before : Option Int := none
deriving Repr

/-- ASCII lower-casing and substring test for emoji_name__icontains. -/
def toLowerStr (s : String) : String := String.mk (s.data.map Char.toLower)

def startsWithChars : List Char → List Char → Bool
  | [], _ => true
  | _ :: _, [] => false
  | a :: xs, b :: ys => a = b && startsWithChars xs ys

def substrChars (needle : List Char) : List Char → Bool
  | [] => startsWithChars needle []
  | b :: rest => startsWithChars needle (b :: rest) || substrChars needle rest

def icontains (hay needle : String) : Bool :=
  substrChars (toLowerStr needle).data (toLowerStr hay).data

/-- SQL comparison against a NULL message_timestamp is not satisfied. -/
def tsGte (o : Option Int) (d : Int) : Bool :=
  match o with
  | some t => d ≤ t
  | none => false

def tsLte (o : Option Int) (d : Int) : Bool :=
  match o with
  | some t => t ≤ d
  | none => false

/-- emoticon._apply_query_filters as a predicate over usage records: the
base filter combines the guild id with user_id > 0, then the
permission-restricted channel scope (an empty permitted intersection
becomes the impossible channel_id = -1 condition, never satisfiable for
channel ids), the exclusion lists, the inclusive date bounds and the
emoji-name substring alternatives. -/
def applyQueryFilters (g : Guild) (config : EmoticonConfig) (user : Member)
    (gid : Nat) (q : ParsedQuery) (r : UsageRecord) : Bool :=
  let channelOk :=
    if q.channels ≠ [] then
      let allowed := filterChannels g (some config) user q.channels
      if allowed ≠ [] then allowed.contains r.channel_id
      else false
    else (getViewableChannels g (some config) user).contains r.channel_id
  (r.guild_id = gid) && (0 < r.user_id) && channelOk &&
  (q.excluded_channels = [] || !(q.excluded_channels.contains r.channel_id)) &&
  (q.users = [] || q.users.contains r.user_id) &&
  (q.excluded_users = [] || !(q.excluded_users.contains r.user_id)) &&
  (match q.date_after with
   | some d => tsGte r.message_timestamp d
   | none => true) &&
  (match q.date_before with
   | some d => tsLte r.message_timestamp d
   | none => true) &&
  (q.emojis = [] || q.emojis.any (fun en => icontains r.emoji_name en))

/-- Definition following the claim C1 words (for comparison only): the
same filters WITHOUT the user guard, so bulk-scan records with user id 0
still count towards emoji-level totals. -/
def applyQueryFiltersSpecC1 (g : Guild) (config : EmoticonConfig) (user : Member)
    (gid : Nat) (q : ParsedQuery) (r : UsageRecord) : Bool :=
  let channelOk :=
    if q.channels ≠ [] then
      let allowed := filterChannels g (some config) user q.channels
      if allowed ≠ [] then allowed.contains r.channel_id
      else false
    else (getViewableChannels g (some config) user).contains r.channel_id
  (r.guild_id = gid) && channelOk &&
  (q.excluded_channels = [] || !(q.excluded_channels.contains r.channel_id)) &&
  (q.users = [] || q.users.contains r.user_id) &&
  (q.excluded_users = [] || !(q.excluded_users.contains r.user_id)) &&
  (match q.date_after with
   | some d => tsGte r.message_timestamp d
   | none => true) &&
  (match q.date_before with
   | some d => tsLte r.message_timestamp d
   | none => true) &&
  (q.emojis = [] || q.emojis.any (fun en => icontains r.emoji_name en))

/-- Sum of the per-record occurrence counts (the Sum of count annotate). -/
def sumCounts (rs : List UsageRecord) : Nat := (rs.map (fun r => r.count)).sum

/-- The emoji-level total of the leaderboard and info commands: Sum of
count over the records matching the base query filters. -/
def emojiLevelTotal (g : Guild) (config : EmoticonConfig) (user : Member)
    (gid : Nat) (q : ParsedQuery) (store : List UsageRecord) : Nat :=
  sumCounts (store.filter (applyQueryFilters g config user gid q))

/-- Definition following the claim C1 words (for comparison only): the
emoji-level total with the user-0 records included. -/
def emojiLevelTotalSpecC1 (g : Guild) (config : EmoticonConfig) (user : Member)
    (gid : Nat) (q : ParsedQuery) (store : List UsageRecord) : Nat :=
  sumCounts (store.filter (applyQueryFiltersSpecC1 g config user gid q))

/-- A one-text-channel guild where everything is viewable, for concrete
instances. -/
def demoGuild : Guild :=
  { owner_id := 99, channels := [{ id := 1, ctype := ChannelType.text }],
    emoji_ids := [], view_channel := fun _ _ => true }

def demoConfig : EmoticonConfig := { guild_id := 1 }

/-- A viewer without admin override in demoGuild. -/
def demoUser : Member := { id := 5, is_administrator := false, role_ids := [] }

/-- C1 counterexample: a store holding one bulk-scan record (user id 0,
count 5) in a viewable channel, with an empty query.  The claim says the
record still counts towards the emoji-level total (5); the code computes
the total over the base filters, which exclude user id 0, giving 0. -/
theorem user_zero_total_counterexample :
    emojiLevelTotal demoGuild demoConfig demoUser 1 {}
        [{ guild_id := 1, channel_id := 1, user_id := 0, message_id := 7,
           emoji_id := none, emoji_name := "grin", count := 5 }] = 0
    ∧ emojiLevelTotalSpecC1 demoGuild demoConfig demoUser 1 {}
        [{ guild_id := 1, channel_id := 1, user_id := 0, message_id := 7,
           emoji_id := none, emoji_name := "grin", count := 5 }] = 5 := by
  constructor <;> rfl

/-- C1 amended: records with user id 0 are excluded from ALL aggregations
built on the query filters — per-user aggregations and rankings as well
as emoji-level totals: every record matching the built filters has a
positive user id, and the emoji-level total is unchanged by removing the
user-0 records beforehand. -/
theorem query_filters_exclude_user_zero (g : Guild) (config : EmoticonConfig)
    (user : Member) (gid : Nat) (q : ParsedQuery) :
    (∀ r : UsageRecord, applyQueryFilters g config user gid q r = true → 0 < r.user_id)
    ∧ ∀ store : List UsageRecord,
        emojiLevelTotal g config user gid q store
          = emojiLevelTotal g config user gid q
              (store.filter (fun r => 0 < r.user_id)) := by
  have hkey : ∀ r : UsageRecord,
      applyQueryFilters g config user gid q r = true → 0 < r.user_id := by
    intro r h
    simp only [applyQueryFilters, Bool.and_eq_true, decide_eq_true_eq] at h
    exact h.1.1.1.1.1.1.1.2
  refine ⟨hkey, ?_⟩
  have hlist : ∀ store : List UsageRecord,
      store.filter (applyQueryFilters g config user gid q)
        = (store.filter (fun r => 0 < r.user_id)).filter
            (applyQueryFilters g config user gid q) := by
    intro store
    induction store with
    | nil => rfl
    | cons r rs ih =>
      by_cases hr : applyQueryFilters g config user gid q r = true
      · have hp : 0 < r.user_id := hkey r hr
        simp [List.filter_cons, hr, hp, ih]
      · by_cases hp : 0 < r.user_id
        · simp [List.filter_cons, hr, hp, ih]
        · simp [List.filter_cons, hr, hp, ih]
  intro store
  unfold emojiLevelTotal
  rw [hlist]

/-- C1 amended witness: the instantiation at the demo guild with the
empty query. -/
theorem query_filters_exclude_user_zero_witness :
    (∀ r : UsageRecord,
        applyQueryFilters demoGuild demoConfig demoUser 1 {} r = true → 0 < r.user_id)
    ∧ ∀ store : List UsageRecord,
        emojiLevelTotal demoGuild demoConfig demoUser 1 {} store
          = emojiLevelTotal demoGuild demoConfig demoUser 1 {}
              (store.filter (fun r => 0 < r.user_id)) :=
  query_filters_exclude_user_zero demoGuild demoConfig demoUser 1 {}

/- ### emoticon.info : grouping and the server-wide rank -/

/-- One group of the group_by(emoji_id, emoji_name) aggregation: rows is
the Count of id (the aggregate the info command orders by), total is the
Sum of count (kept alongside for the claim comparison). -/
structure EmojiGroup where
  emoji_id : Option Nat
  emoji_name : String
  rows : Nat
  total : Nat
deriving DecidableEq, Repr

def addToGroups (gs : List EmojiGroup) (r : UsageRecord) : List EmojiGroup :=
  if gs.any (fun gr => gr.emoji_id = r.emoji_id && gr.emoji_name = r.emoji_name) then
    gs.map (fun gr =>
      if gr.emoji_id = r.emoji_id && gr.emoji_name = r.emoji_name then
        { gr with rows := gr.rows + 1, total := gr.total + r.count }
      else gr)
  else
    gs ++ [{ emoji_id := r.emoji_id, emoji_name := r.emoji_name, rows := 1,
             total := r.count }]

/-- group_by with the groups in first-occurrence order. -/
def groupByEmoji (rs : List UsageRecord) : List EmojiGroup :=
  rs.foldl addToGroups []

/-- Stable descending ordering by a numeric key (order_by on the negated
aggregate): each group is placed after every earlier group whose key is
greater or equal, so equal keys keep their first-occurrence order. -/
def insertDescBy (key : EmojiGroup → Nat) (x : EmojiGroup) :
    List EmojiGroup → List EmojiGroup
  | [] => [x]
  | y :: ys => if key y < key x then x :: y :: ys else y :: insertDescBy key x ys

def sortDescBy (key : EmojiGroup → Nat) (l : List EmojiGroup) : List EmojiGroup :=
  l.foldl (fun acc x => insertDescBy key x acc) []

/-- The all_emojis query of the info command: group the base-filtered
records by exact identity and order by ROW COUNT descending. -/
def infoRankGroups (g : Guild) (config : EmoticonConfig) (user : Member) (gid : Nat)
    (q : ParsedQuery) (store : List UsageRecord) : List EmojiGroup :=
  sortDescBy (fun gr => gr.rows)
    (groupByEmoji (store.filter (applyQueryFilters g config user gid q)))

/-- The rank loop of the info command: 1-based enumeration, stop at the
first group whose emoji_id and emoji_name both equal the target. -/
def findRank (tid : Option Nat) (tname : String) : Nat → List EmojiGroup → Option Nat
  | _, [] => none
  | i, gr :: gs =>
    if gr.emoji_id = tid && gr.emoji_name = tname then some i
    else findRank tid tname (i + 1) gs

/-- The server-wide rank reported by the info command (rank stays at its
initial value 1 when no group matches). -/
def infoRank (g : Guild) (config : EmoticonConfig) (user : Member) (gid : Nat)
    (q : ParsedQuery) (store : List UsageRecord) (tid : Option Nat) (tname : String) :
    Nat :=
  (findRank tid tname 1 (infoRankGroups g config user gid q store)).getD 1

/-- Definition following the claim C5 words (for comparison only): the
leaderboard ordered by SUMMED occurrence counts instead of row counts. -/
def infoRankSpecC5 (g : Guild) (config : EmoticonConfig) (user : Member) (gid : Nat)
    (q : ParsedQuery) (store : List UsageRecord) (tid : Option Nat) (tname : String) :
    Nat :=
  (findRank tid tname 1
    (sortDescBy (fun gr => gr.total)
      (groupByEmoji (store.filter (applyQueryFilters g config user gid q))))).getD 1

/-- C5 counterexample: emoji a has ONE record of count 5, emoji b has TWO
records of count 1.  By summed occurrence counts (the claim) the
leaderboard is [a: 5, b: 2] and b has rank 2; the code orders by row
count, giving [b: 2 rows, a: 1 row] and rank 1 for b. -/
theorem info_rank_counterexample :
    infoRank demoGuild demoConfig demoUser 1 {}
        [{ guild_id := 1, channel_id := 1, user_id := 1, message_id := 7,
           emoji_id := some 10, emoji_name := "a", count := 5 },
         { guild_id := 1, channel_id := 1, user_id := 1, message_id := 8,
           emoji_id := some 20, emoji_name := "b", count := 1 },
         { guild_id := 1, channel_id := 1, user_id := 1, message_id := 9,
           emoji_id := some 20, emoji_name := "b", count := 1 }]
        (some 20) "b" = 1
    ∧ infoRankSpecC5 demoGuild demoConfig demoUser 1 {}
        [{ guild_id := 1, channel_id := 1, user_id := 1, message_id := 7,
           emoji_id := some 10, emoji_name := "a", count := 5 },
         { guild_id := 1, channel_id := 1, user_id := 1, message_id := 8,
           emoji_id := some 20, emoji_name := "b", count := 1 },
         { guild_id := 1, channel_id := 1, user_id := 1, message_id := 9,
           emoji_id := some 20, emoji_name := "b", count := 1 }]
        (some 20) "b" = 2 := by
  constructor <;> rfl

theorem findRank_characterizes {tid : Option Nat} {tname : String} :
    ∀ (gs : List EmojiGroup) (n i : Nat), findRank tid tname n gs = some i →
      n ≤ i
      ∧ (∃ gr, gs[i - n]? = some gr ∧ gr.emoji_id = tid ∧ gr.emoji_name = tname)
      ∧ ∀ j < i - n, ∀ gr, gs[j]? = some gr →
          ¬(gr.emoji_id = tid ∧ gr.emoji_name = tname) := by
  intro gs
  induction gs with
  | nil => intro n i h; simp [findRank] at h
  | cons gr gs ih =>
    intro n i h
    rw [findRank] at h
    split at h
    · rename_i hm
      obtain rfl : n = i := Option.some.inj h
      simp only [Bool.and_eq_true, decide_eq_true_eq] at hm
      refine ⟨Nat.le_refl _, ⟨gr, by simp, hm.1, hm.2⟩, ?_⟩
      intro j hj
      exact absurd hj (by omega)
    · rename_i hm
      obtain ⟨hle, ⟨gr2, hget, h1, h2⟩, hnone⟩ := ih (n + 1) i h
      refine ⟨by omega, ⟨gr2, ?_, h1, h2⟩, ?_⟩
      · have hin : i - n = (i - (n + 1)) + 1 := by omega
        rw [hin]
        simpa using hget
      · intro j hj gr3 hget3
        cases j with
        | zero =>
          simp only [List.getElem?_cons_zero, Option.some.injEq] at hget3
          subst hget3
          rintro ⟨e1, e2⟩
          exact hm (by simp [e1, e2])
        | succ j2 =>
          have hj2 : j2 < i - (n + 1) := by omega
          exact hnone j2 hj2 gr3 (by simpa using hget3)

/-- One count-1 record for the tie instance. -/
def tieRec (eid : Nat) (ename : String) : UsageRecord :=
  { guild_id := 1, channel_id := 1, user_id := 1, message_id := 0,
    emoji_id := some eid, emoji_name := ename }

/-- A store whose grouped row counts are [50, 30, 30, 10] over the four
emoji ids 1, 2, 3, 4 (each record has count 1). -/
def tieStore : List UsageRecord :=
  List.replicate 50 (tieRec 1 "a") ++ List.replicate 30 (tieRec 2 "b")
    ++ List.replicate 30 (tieRec 3 "c") ++ List.replicate 10 (tieRec 4 "d")

set_option maxRecDepth 40000

/-- C5 amended: the single entity rank reported by the info command is
the 1-based position of the first group matching the exact identity in
the full leaderboard of matching records grouped by identity with ROW
counts (the Count of id, not the summed occurrence counts), sorted
descending with ties kept in first-occurrence order, computed once over
the full result set; for grouped row counts [50, 30, 30, 10] the first
tied entity has rank 2 and the second rank 3. -/
theorem info_rank_row_count_position (g : Guild) (config : EmoticonConfig)
    (user : Member) (gid : Nat) (q : ParsedQuery) (store : List UsageRecord)
    (tid : Option Nat) (tname : String) (i : Nat)
    (h : findRank tid tname 1 (infoRankGroups g config user gid q store) = some i) :
    (infoRank g config user gid q store tid tname = i
      ∧ 1 ≤ i
      ∧ (∃ gr, (infoRankGroups g config user gid q store)[i - 1]? = some gr ∧
          gr.emoji_id = tid ∧ gr.emoji_name = tname)
      ∧ ∀ j < i - 1, ∀ gr, (infoRankGroups g config user gid q store)[j]? = some gr →
          ¬(gr.emoji_id = tid ∧ gr.emoji_name = tname))
    ∧ infoRank demoGuild demoConfig demoUser 1 {} tieStore (some 2) "b" = 2
    ∧ infoRank demoGuild demoConfig demoUser 1 {} tieStore (some 3) "c" = 3 := by
  refine ⟨?_, rfl, rfl⟩
  obtain ⟨hle, hat, hbefore⟩ := findRank_characterizes _ 1 i h
  exact ⟨by rw [infoRank, h]; rfl, hle, hat, hbefore⟩

/-- C5 amended witness: a single-group store where the target is first. -/
theorem info_rank_row_count_position_witness :
    findRank (some 7) "x" 1
        (infoRankGroups demoGuild demoConfig demoUser 1 {}
          [{ guild_id := 1, channel_id := 1, user_id := 1, message_id := 7,
             emoji_id := some 7, emoji_name := "x" }]) = some 1
    ∧ ((infoRank demoGuild demoConfig demoUser 1 {}
          [{ guild_id := 1, channel_id := 1, user_id := 1, message_id := 7,
             emoji_id := some 7, emoji_name := "x" }] (some 7) "x" = 1
        ∧ 1 ≤ 1
        ∧ (∃ gr, (infoRankGroups demoGuild demoConfig demoUser 1 {}
              [{ guild_id := 1, channel_id := 1, user_id := 1, message_id := 7,
                 emoji_id := some 7, emoji_name := "x" }])[1 - 1]? = some gr ∧
            gr.emoji_id = some 7 ∧ gr.emoji_name = "x")
        ∧ ∀ j < 1 - 1, ∀ gr, (infoRankGroups demoGuild demoConfig demoUser 1 {}
              [{ guild_id := 1, channel_id := 1, user_id := 1, message_id := 7,
                 emoji_id := some 7, emoji_name := "x" }])[j]? = some gr →
            ¬(gr.emoji_id = some 7 ∧ gr.emoji_name = "x"))
      ∧ infoRank demoGuild demoConfig demoUser 1 {} tieStore (some 2) "b" = 2
      ∧ infoRank demoGuild demoConfig demoUser 1 {} tieStore (some 3) "c" = 3) :=
  ⟨rfl, info_rank_row_count_position demoGuild demoConfig demoUser 1 {} _ (some 7) "x" 1 rfl⟩

/- ### the scan routine (emoticon.Emoticon.scan) -/

/-- A reaction on a scanned message: the emoji as extract_from_reaction
yields it, the aggregate reaction count, the reacting users (id, bot
flag) and whether enumerating the users raises Forbidden. -/
structure Reaction where
  emoji : ExtractedEmoji
  rcount : Nat
  users : List (Nat × Bool)
  users_forbidden : Bool := false
deriving Repr

structure ScanMessage where
  id : Nat
  author_id : Nat := 1
  author_bot : Bool := false
  content : String := ""
  reactions : List Reaction := []
  timestamp : Int := 0
deriving Repr

structure ScanChannel where
  id : Nat
  msgs : List ScanMessage := []
  forbidden : Bool := false
deriving Repr

/-- models.ScanProgress: the status, the counters and the last error
(wall-clock timestamps are not modelled). -/
structure ScanProgress where
  status : String
  total_channels : Nat
  scanned_channels : Nat
  total_messages : Nat
  scanned_messages : Nat
  emojis_found : Nat
  last_error : Option String
deriving DecidableEq, Repr

inductive SyncMode where
  | append
  | rescan
deriving DecidableEq, Repr

/-- The cooperative cancel flag: set once by the stop command and only
cleared in the finally of the scan routine, so as a function of how many
times the routine has read it, it is a monotone threshold. -/
def flagAt (cancelAt : Option Nat) (reads : Nat) : Bool :=
  match cancelAt with
  | some t => t ≤ reads
  | none => false

/-- The per-run inputs of one scan invocation. -/
structure ScanCtx where
  guild_emoji_ids : List Nat
  gid : Nat
  config : EmoticonConfig
  filters : List EmojiFilterRec
  syncMode : SyncMode
  dryRun : Bool
  cancelAt : Option Nat
deriving Repr

/-- The mutable state the scan body threads: the usage store, the live
progress row and the number of cancel-flag reads so far. -/
structure ScanSt where
  store : List UsageRecord
  progress : ScanProgress
  flagReads : Nat
deriving Repr

/-- emoticon._record_emoji_usage. -/
def recordUsage (gid cid uid mid : Nat) (e : ExtractedEmoji) (isReaction : Bool)
    (mts : Int) : UsageRecord :=
  { guild_id := gid, channel_id := cid, user_id := uid, message_id := mid,
    emoji_id := e.emoji_id, emoji_name := e.emoji_name, emoji_animated := e.animated,
    is_external := e.is_external, is_reaction := isReaction, count := e.count,
    message_timestamp := some mts }

def bumpEmojis (n : Nat) (st : ScanSt) : ScanSt :=
  { st with progress := { st.progress with
      emojis_found := st.progress.emojis_found + n } }

def bumpMessages (st : ScanSt) : ScanSt :=
  { st with progress := { st.progress with
      scanned_messages := st.progress.scanned_messages + 1 } }

def bumpChannels (st : ScanSt) : ScanSt :=
  { st with progress := { st.progress with
      scanned_channels := st.progress.scanned_channels + 1 } }

def addRecord (r : UsageRecord) (st : ScanSt) : ScanSt :=
  { st with store := st.store ++ [r] }

/-- The text-emoji pass of one scanned message: every tracked emoji
bumps emojis_found by its consolidated count; a record is written only
when not in dry-run. -/
def scanMessageEmojis (ctx : ScanCtx) (cid : Nat) (m : ScanMessage) (st : ScanSt) :
    ScanSt :=
  (extractFromMessage ctx.guild_emoji_ids m.content).foldl
    (fun s e =>
      if shouldTrackEmoji ctx.filters e ctx.config then
        let s2 := bumpEmojis e.count s
        if !ctx.dryRun then
          addRecord (recordUsage ctx.gid cid m.author_id m.id e false m.timestamp) s2
        else s2
      else s) st

/-- The reaction pass of one scanned message: per tracked reaction emoji
(count forced to 1), a real run enumerates the reacting users — skipping
bots, one event and one counter bump per user, the whole enumeration
swallowed when Forbidden — while a dry run just adds the aggregate
reaction count to the counter. -/
def scanMessageReactions (ctx : ScanCtx) (cid : Nat) (m : ScanMessage) (st : ScanSt) :
    ScanSt :=
  m.reactions.foldl
    (fun s r =>
      let e := { r.emoji with count := 1 }
      if shouldTrackEmoji ctx.filters e ctx.config then
        if !ctx.dryRun then
          if r.users_forbidden then s
          else r.users.foldl
            (fun s2 u =>
              if u.2 then s2
              else
                addRecord (recordUsage ctx.gid cid u.1 m.id e true m.timestamp)
                  (bumpEmojis 1 s2)) s
        else bumpEmojis r.rcount s
      else s) st

/-- One non-bot message: count it, then the text pass and the reaction
pass (the throttled progress edit and the rate-limit sleep have no
observable state here). -/
def processMessage (ctx : ScanCtx) (cid : Nat) (m : ScanMessage) (st : ScanSt) :
    ScanSt :=
  scanMessageReactions ctx cid m (scanMessageEmojis ctx cid m (bumpMessages st))

/-- The message loop of one channel: the cancel flag is read at the top
of each iteration; a set flag breaks out of the loop, bot-authored
messages are skipped before the message counter. -/
def processHistory (ctx : ScanCtx) (cid : Nat) :
    List ScanMessage → ScanSt → ScanSt
  | [], st => st
  | m :: rest, st =>
    let st2 : ScanSt := { st with flagReads := st.flagReads + 1 }
    if flagAt ctx.cancelAt st.flagReads then st2
    else if m.author_bot then processHistory ctx cid rest st2
    else processHistory ctx cid rest (processMessage ctx cid m st2)

/-- channel.history(after=...): in append mode with a watermark that
fetch_message resolves in this channel, only the messages after it;
otherwise (rescan mode, no watermark, or NotFound) the whole history. -/
def dropThrough (w : Nat) : List ScanMessage → List ScanMessage
  | [] => []
  | m :: rest => if m.id = w then rest else dropThrough w rest

def historyMsgs (ctx : ScanCtx) (ch : ScanChannel) : List ScanMessage :=
  match ctx.syncMode, ctx.config.last_scan_message_id with
  | SyncMode.append, some w =>
    if ch.msgs.any (fun m => m.id = w) then dropThrough w ch.msgs else ch.msgs
  | _, _ => ch.msgs

inductive ChannelsExit where
  | done
  | cancelled
deriving DecidableEq, Repr

/-- The channel loop: one cancel-flag read before each channel; on a set
flag the progress row is saved with status cancelled and the loop exits
(what happens next is up to the caller); a Forbidden channel is skipped
entirely; otherwise the history is walked and scanned_channels is
incremented and saved — even when the message loop broke on the flag. -/
def processChannels (ctx : ScanCtx) :
    List ScanChannel → ScanSt → ScanSt × ChannelsExit
  | [], st => (st, ChannelsExit.done)
  | ch :: rest, st =>
    let st2 : ScanSt := { st with flagReads := st.flagReads + 1 }
    if flagAt ctx.cancelAt st.flagReads then
      ({ st2 with progress := { st2.progress with status := "cancelled" } },
        ChannelsExit.cancelled)
    else if ch.forbidden then processChannels ctx rest st2
    else
      let st3 := processHistory ctx ch.id (historyMsgs ctx ch) st2
      processChannels ctx rest (bumpChannels st3)

/-- What is observable after the scan command handler returns: the usage
store, the persisted progress row, whether the guild scan lock is still
held and whether the cancel-flag entry is still present. -/
structure ScanResult where
  store : List UsageRecord
  progress : ScanProgress
  lock_held : Bool
  cancel_flag_present : Bool
deriving Repr

/-- The NameError raised on the cancellation exit path: emoticon.py calls
warning_embed there without ever importing it from utilities.embeds. -/
def warningEmbedNameError : String :=
  "NameError: name warning_embed is not defined"

/-- The except-handler effect: status failed with the captured error. -/
def failedProgress (p : ScanProgress) : ScanProgress :=
  { p with status := "failed", last_error := some warningEmbedNameError }

/-- The progress row as initialised and saved at the start of a scan. -/
def initProgress (n : Nat) : ScanProgress :=
  { status := "scanning", total_channels := n, scanned_channels := 0,
    total_messages := 0, scanned_messages := 0, emojis_found := 0, last_error := none }

/-- The rescan delete: the guild usage records are removed first, unless
this is a dry run. -/
def initStore (ctx : ScanCtx) (store0 : List UsageRecord) : List UsageRecord :=
  if ctx.syncMode = SyncMode.rescan && !ctx.dryRun then
    store0.filter (fun r => r.guild_id ≠ ctx.gid)
  else store0

def initState (ctx : ScanCtx) (channels : List ScanChannel)
    (store0 : List UsageRecord) : ScanSt :=
  { store := initStore ctx store0, progress := initProgress channels.length,
    flagReads := 0 }

/-- emoticon.Emoticon.scan from the point the guild lock is acquired:
initialise the progress row, delete this guild usage records when
rescanning without dry-run, walk the channels, and leave through exactly
one exit.  Both cancellation exits first persist status cancelled and
then evaluate warning_embed — unimported — so the NameError lands in the
top-level except handler, which persists status failed with the error
text.  The async-with releases the lock and the finally pops the cancel
flag on every exit path. -/
def scanRun (ctx : ScanCtx) (channels : List ScanChannel) (store0 : List UsageRecord) :
    ScanResult :=
  match processChannels ctx channels (initState ctx channels store0) with
  | (st, ChannelsExit.cancelled) =>
    { store := st.store, progress := failedProgress st.progress,
      lock_held := false, cancel_flag_present := false }
  | (st, ChannelsExit.done) =>
    if flagAt ctx.cancelAt st.flagReads then
      { store := st.store,
        progress := failedProgress { st.progress with status := "cancelled" },
        lock_held := false, cancel_flag_present := false }
    else
      { store := st.store,
        progress := { st.progress with status := "completed" },
        lock_held := false, cancel_flag_present := false }

/-- C3: the guild lock is never held after the scan routine returns and
the cancel flag entry is always popped — every exit passes through the
async-with release and the finally — but a flag-triggered exit persists
status failed, not cancelled: the cancellation path saves cancelled and
then evaluates the unimported warning_embed, and the resulting NameError
reaches the top-level except handler, which overwrites the status with
failed.  The concrete conjuncts evaluate a one-channel scan whose cancel
flag is set before the first checkpoint. -/
theorem scan_lock_released_but_cancel_persists_failed :
    (∀ (ctx : ScanCtx) (channels : List ScanChannel) (store0 : List UsageRecord),
      (scanRun ctx channels store0).lock_held = false
      ∧ (scanRun ctx channels store0).cancel_flag_present = false)
    ∧ (scanRun
        { guild_emoji_ids := [], gid := 1, config := demoConfig, filters := [],
          syncMode := SyncMode.append, dryRun := false, cancelAt := some 0 }
        [{ id := 1 }] []).progress.status = "failed"
    ∧ (scanRun
        { guild_emoji_ids := [], gid := 1, config := demoConfig, filters := [],
          syncMode := SyncMode.append, dryRun := false, cancelAt := some 0 }
        [{ id := 1 }] []).progress.last_error = some warningEmbedNameError := by
  refine ⟨?_, rfl, rfl⟩
  intro ctx channels store0
  unfold scanRun
  split
  · exact ⟨rfl, rfl⟩
  · split
    · exact ⟨rfl, rfl⟩
    · exact ⟨rfl, rfl⟩

/- ### C4: rescan with dry-run leaves the store unchanged -/

theorem scanMessageEmojis_dry_store {ctx : ScanCtx} (hdry : ctx.dryRun = true)
    (cid : Nat) (m : ScanMessage) (st : ScanSt) :
    (scanMessageEmojis ctx cid m st).store = st.store := by
  unfold scanMessageEmojis
  generalize extractFromMessage ctx.guild_emoji_ids m.content = es
  induction es generalizing st with
  | nil => rfl
  | cons e es ih =>
    rw [List.foldl_cons, ih]
    by_cases htr : shouldTrackEmoji ctx.filters e ctx.config = true
    · simp [htr, hdry, bumpEmojis]
    · simp [htr]

theorem scanMessageReactions_dry_store {ctx : ScanCtx} (hdry : ctx.dryRun = true)
    (cid : Nat) (m : ScanMessage) (st : ScanSt) :
    (scanMessageReactions ctx cid m st).store = st.store := by
  unfold scanMessageReactions
  generalize m.reactions = rs
  induction rs generalizing st with
  | nil => rfl
  | cons r rs ih =>
    rw [List.foldl_cons, ih]
    by_cases htr : shouldTrackEmoji ctx.filters { r.emoji with count := 1 } ctx.config
        = true
    · simp [htr, hdry, bumpEmojis]
    · simp [htr]

theorem processMessage_dry_store {ctx : ScanCtx} (hdry : ctx.dryRun = true)
    (cid : Nat) (m : ScanMessage) (st : ScanSt) :
    (processMessage ctx cid m st).store = st.store := by
  unfold processMessage
  rw [scanMessageReactions_dry_store hdry, scanMessageEmojis_dry_store hdry]
  rfl

theorem processHistory_dry_store {ctx : ScanCtx} (hdry : ctx.dryRun = true)
    (cid : Nat) (msgs : List ScanMessage) (st : ScanSt) :
    (processHistory ctx cid msgs st).store = st.store := by
  induction msgs generalizing st with
  | nil => rfl
  | cons m rest ih =>
    rw [processHistory]
    split
    · rfl
    · split
      · rw [ih]
      · rw [ih, processMessage_dry_store hdry]

theorem processChannels_dry_store {ctx : ScanCtx} (hdry : ctx.dryRun = true)
    (channels : List ScanChannel) (st : ScanSt) :
    (processChannels ctx channels st).1.store = st.store := by
  induction channels generalizing st with
  | nil => rfl
  | cons ch rest ih =>
    rw [processChannels]
    split
    · rfl
    · split
      · rw [ih]
      · rw [ih]
        unfold bumpChannels
        rw [show (∀ s : ScanSt, ({ s with progress := { s.progress with
            scanned_channels := s.progress.scanned_channels + 1 } } : ScanSt).store
            = s.store) from fun s => rfl]
        rw [processHistory_dry_store hdry]

/- ### C4: the dry-run emoji counter -/

/-- The expected dry-run contribution of one message: tracked text
emojis contribute their consolidated counts, tracked reaction emojis
their aggregate reaction counts. -/
def dryRunMsgCount (ctx : ScanCtx) (m : ScanMessage) : Nat :=
  ((extractFromMessage ctx.guild_emoji_ids m.content).map
    (fun e => if shouldTrackEmoji ctx.filters e ctx.config then e.count else 0)).sum
  + (m.reactions.map
    (fun r => if shouldTrackEmoji ctx.filters { r.emoji with count := 1 } ctx.config
        then r.rcount else 0)).sum

def dryRunChannelCount (ctx : ScanCtx) (ch : ScanChannel) : Nat :=
  ((historyMsgs ctx ch).map
    (fun m => if m.author_bot then 0 else dryRunMsgCount ctx m)).sum

def dryRunTotalCount (ctx : ScanCtx) (channels : List ScanChannel) : Nat :=
  (channels.map (fun ch => dryRunChannelCount ctx ch)).sum

theorem scanMessageEmojis_dry_count {ctx : ScanCtx} (hdry : ctx.dryRun = true)
    (cid : Nat) (m : ScanMessage) (st : ScanSt) :
    (scanMessageEmojis ctx cid m st).progress.emojis_found
      = st.progress.emojis_found
        + ((extractFromMessage ctx.guild_emoji_ids m.content).map
            (fun e => if shouldTrackEmoji ctx.filters e ctx.config then e.count
                else 0)).sum := by
  unfold scanMessageEmojis
  generalize extractFromMessage ctx.guild_emoji_ids m.content = es
  induction es generalizing st with
  | nil => simp
  | cons e es ih =>
    rw [List.foldl_cons, List.map_cons, List.sum_cons, ih]
    by_cases htr : shouldTrackEmoji ctx.filters e ctx.config = true
    · simp only [htr, if_true, hdry, Bool.not_true, Bool.false_eq_true, if_false,
        bumpEmojis]
      omega
    · simp only [htr, Bool.false_eq_true, if_false]
      omega

theorem scanMessageReactions_dry_count {ctx : ScanCtx} (hdry : ctx.dryRun = true)
    (cid : Nat) (m : ScanMessage) (st : ScanSt) :
    (scanMessageReactions ctx cid m st).progress.emojis_found
      = st.progress.emojis_found
        + (m.reactions.map
            (fun r => if shouldTrackEmoji ctx.filters { r.emoji with count := 1 }
                ctx.config then r.rcount else 0)).sum := by
  unfold scanMessageReactions
  generalize m.reactions = rs
  induction rs generalizing st with
  | nil => simp
  | cons r rs ih =>
    rw [List.foldl_cons, List.map_cons, List.sum_cons, ih]
    by_cases htr : shouldTrackEmoji ctx.filters { r.emoji with count := 1 } ctx.config
        = true
    · simp only [htr, if_true, hdry, Bool.not_true, Bool.false_eq_true, if_false,
        bumpEmojis]
      omega
    · simp only [htr, Bool.false_eq_true, if_false]
      omega

theorem processMessage_dry_count {ctx : ScanCtx} (hdry : ctx.dryRun = true)
    (cid : Nat) (m : ScanMessage) (st : ScanSt) :
    (processMessage ctx cid m st).progress.emojis_found
      = st.progress.emojis_found + dryRunMsgCount ctx m := by
  unfold processMessage dryRunMsgCount
  rw [scanMessageReactions_dry_count hdry, scanMessageEmojis_dry_count hdry]
  show _ = st.progress.emojis_found + _
  unfold bumpMessages
  dsimp only
  omega

theorem processHistory_dry_count {ctx : ScanCtx} (hdry : ctx.dryRun = true)
    (hnone : ctx.cancelAt = none) (cid : Nat) (msgs : List ScanMessage) (st : ScanSt) :
    (processHistory ctx cid msgs st).progress.emojis_found
      = st.progress.emojis_found
        + (msgs.map (fun m => if m.author_bot then 0 else dryRunMsgCount ctx m)).sum := by
  induction msgs generalizing st with
  | nil => simp [processHistory]
  | cons m rest ih =>
    rw [processHistory, List.map_cons, List.sum_cons]
    have hflag : flagAt ctx.cancelAt st.flagReads = false := by
      rw [hnone]; rfl
    rw [hflag]
    simp only [Bool.false_eq_true, if_false]
    by_cases hbot : m.author_bot = true
    · simp only [hbot, if_true]
      rw [ih]
      dsimp only
      omega
    · simp only [hbot, Bool.false_eq_true, if_false]
      rw [ih, processMessage_dry_count hdry]
      dsimp only
      omega

theorem processChannels_dry_count {ctx : ScanCtx} (hdry : ctx.dryRun = true)
    (hnone : ctx.cancelAt = none) (channels : List ScanChannel)
    (hforb : ∀ ch ∈ channels, ch.forbidden = false) (st : ScanSt) :
    (processChannels ctx channels st).2 = ChannelsExit.done
    ∧ (processChannels ctx channels st).1.progress.emojis_found
      = st.progress.emojis_found + dryRunTotalCount ctx channels := by
  induction channels generalizing st with
  | nil => exact ⟨rfl, by simp [processChannels, dryRunTotalCount]⟩
  | cons ch rest ih =>
    have hflag : flagAt ctx.cancelAt st.flagReads = false := by
      rw [hnone]; rfl
    have hch : ch.forbidden = false := hforb ch (by simp)
    have hrest : ∀ c ∈ rest, c.forbidden = false := fun c hc => hforb c (by simp [hc])
    rw [processChannels, hflag]
    simp only [Bool.false_eq_true, if_false, hch]
    obtain ⟨h1, h2⟩ := ih hrest (bumpChannels (processHistory ctx ch.id (historyMsgs ctx ch)
      { st with flagReads := st.flagReads + 1 }))
    refine ⟨h1, ?_⟩
    rw [h2]
    unfold bumpChannels
    dsimp only
    rw [processHistory_dry_count hdry hnone]
    show _ + _ = _ + dryRunTotalCount ctx (ch :: rest)
    unfold dryRunTotalCount dryRunChannelCount
    rw [List.map_cons, List.sum_cons]
    dsimp only
    omega

/-- C4: a rescan with dry-run leaves the usage store unchanged — no
records deleted, none written, whatever the cancellation pattern and the
channel contents — and (when no cancellation fires and no channel is
Forbidden) the emojis-found counter still accumulates the count of every
emoji that passes the tracking policy: the consolidated counts of the
tracked text emojis plus the aggregate counts of the tracked reaction
emojis. -/
theorem rescan_dry_run_frame (ctx : ScanCtx) (channels : List ScanChannel)
    (store0 : List UsageRecord) (hmode : ctx.syncMode = SyncMode.rescan)
    (hdry : ctx.dryRun = true) :
    (scanRun ctx channels store0).store = store0
    ∧ (ctx.cancelAt = none → (∀ ch ∈ channels, ch.forbidden = false) →
        (scanRun ctx channels store0).progress.emojis_found
          = dryRunTotalCount ctx channels) := by
  have hst0 := processChannels_dry_store hdry channels (initState ctx channels store0)
  have hkeep : (initState ctx channels store0).store = store0 := by
    show initStore ctx store0 = store0
    unfold initStore
    rw [hmode, hdry]
    rfl
  rw [hkeep] at hst0
  constructor
  · unfold scanRun
    split
    · rename_i st heq
      rw [heq] at hst0
      exact hst0
    · rename_i st heq
      rw [heq] at hst0
      split
      · exact hst0
      · exact hst0
  · intro hnone hforb
    unfold scanRun
    obtain ⟨hdone, hcount⟩ := processChannels_dry_count hdry hnone channels hforb
      (initState ctx channels store0)
    split
    · rename_i st heq
      rw [heq] at hdone
      simp at hdone
    · rename_i st heq
      rw [heq] at hcount
      have hflag : flagAt ctx.cancelAt st.flagReads = false := by
        rw [hnone]; rfl
      rw [hflag]
      simp only [Bool.false_eq_true, if_false]
      dsimp only at hcount ⊢
      have hinit : (initState ctx channels store0).progress.emojis_found = 0 := rfl
      rw [hinit] at hcount
      omega

/-- C4 witness: a one-channel, one-message rescan dry run over a store
holding one prior record for the guild. -/
theorem rescan_dry_run_frame_witness :
    ({ guild_emoji_ids := [], gid := 1, config := demoConfig, filters := [],
       syncMode := SyncMode.rescan, dryRun := true, cancelAt := none } :
        ScanCtx).syncMode = SyncMode.rescan
    ∧ ({ guild_emoji_ids := [], gid := 1, config := demoConfig, filters := [],
         syncMode := SyncMode.rescan, dryRun := true, cancelAt := none } :
          ScanCtx).dryRun = true
    ∧ ((scanRun
          { guild_emoji_ids := [], gid := 1, config := demoConfig, filters := [],
            syncMode := SyncMode.rescan, dryRun := true, cancelAt := none }
          [{ id := 1, msgs := [{ id := 7, content := "<:fire:42>" }] }]
          [{ guild_id := 1, channel_id := 1, user_id := 2, message_id := 3,
             emoji_id := none, emoji_name := "old" }]).store
        = [{ guild_id := 1, channel_id := 1, user_id := 2, message_id := 3,
             emoji_id := none, emoji_name := "old" }]
      ∧ (({ guild_emoji_ids := [], gid := 1, config := demoConfig, filters := [],
            syncMode := SyncMode.rescan, dryRun := true, cancelAt := none } :
              ScanCtx).cancelAt = none →
          (∀ ch ∈ [({ id := 1, msgs := [{ id := 7, content := "<:fire:42>" }] } :
              ScanChannel)], ch.forbidden = false) →
          (scanRun
            { guild_emoji_ids := [], gid := 1, config := demoConfig, filters := [],
              syncMode := SyncMode.rescan, dryRun := true, cancelAt := none }
            [{ id := 1, msgs := [{ id := 7, content := "<:fire:42>" }] }]
            [{ guild_id := 1, channel_id := 1, user_id := 2, message_id := 3,
               emoji_id := none, emoji_name := "old" }]).progress.emojis_found
            = dryRunTotalCount
                { guild_emoji_ids := [], gid := 1, config := demoConfig, filters := [],
                  syncMode := SyncMode.rescan, dryRun := true, cancelAt := none }
                [{ id := 1, msgs := [{ id := 7, content := "<:fire:42>" }] }])) :=
  ⟨rfl, rfl, rescan_dry_run_frame _ _ _ rfl rfl⟩

end Emoticon
